import Mathlib

/-!
# Verification of the fastapi-yookassa order/payment relay (`src/main.py`)

Shallow embedding of the service in `main.py`: the `Order` table, the
`POST /order` handler (`create_order`), the `POST /webhook` handler
(`yookassa_webhook`), the `GET /order/{order_id}/status` handler
(`get_order_status`), and the source-trust check `is_yookassa_ip` together
with the Python `ipaddress` parsing it relies on.

External collaborators (the YooKassa gateway, the Telegram bot, the email
validator used by pydantic's `EmailStr`) are passed in as explicit
parameters/oracles; everything the repository's own code does is translated
directly from `main.py`.
-/

namespace YK

/-! ## The `ipaddress` model

`main.py` calls `ipaddress.ip_address(ip)` and membership in
`ipaddress.ip_network(...)` values.  We model the CPython `ipaddress`
parsing of IPv4 and IPv6 address strings (`_ip_int_from_string` and its
helpers) over `List Char`, and network membership as the
`address & netmask == network_address` test CPython performs. -/

/-- `str.split(sep)` on a single-character separator, as in CPython:
`"" ↦ [""]`, separators at the ends produce empty pieces. -/
def splitOnChar (sep : Char) : List Char → List (List Char)
  | [] => [[]]
  | c :: cs =>
    let rest := splitOnChar sep cs
    if c = sep then [] :: rest
    else
      match rest with
      | [] => [[c]]
      | r :: rs => (c :: r) :: rs

/-- Decimal digit test (CPython `_DECIMAL_DIGITS`). -/
def isDecDigit (c : Char) : Bool := '0' ≤ c && c ≤ '9'

/-- Hexadecimal digit test (CPython `_HEX_DIGITS`). -/
def isHexDigitChar (c : Char) : Bool :=
  ('0' ≤ c && c ≤ '9') || ('a' ≤ c && c ≤ 'f') || ('A' ≤ c && c ≤ 'F')

/-- Numeric value of a hexadecimal digit. -/
def hexDigitVal (c : Char) : Nat :=
  if '0' ≤ c && c ≤ '9' then c.toNat - '0'.toNat
  else if 'a' ≤ c && c ≤ 'f' then c.toNat - 'a'.toNat + 10
  else c.toNat - 'A'.toNat + 10

/-- CPython `IPv4Address._parse_octet`: non-empty, all decimal digits, at
most 3 characters, no leading zero (unless the octet is exactly "0"),
value at most 255. -/
def parseOctet (cs : List Char) : Option Nat :=
  if cs.isEmpty then none
  else if !(cs.all isDecDigit) then none
  else if cs.length > 3 then none
  else if cs.length > 1 && cs.head? = some '0' then none
  else
    let v := cs.foldl (fun a c => a * 10 + (c.toNat - '0'.toNat)) 0
    if v > 255 then none else some v

/-- CPython `IPv4Address._ip_int_from_string`: exactly four octets
separated by dots. -/
def ipv4FromChars (cs : List Char) : Option Nat :=
  match (splitOnChar '.' cs).mapM parseOctet with
  | some [a, b, c, d] => some ((((a * 256 + b) * 256 + c) * 256) + d)
  | _ => none

/-- CPython `IPv6Address._parse_hextet`: non-empty, all hex digits, at most
4 characters. -/
def parseHextet (cs : List Char) : Option Nat :=
  if cs.isEmpty then none
  else if !(cs.all isHexDigitChar) then none
  else if cs.length > 4 then none
  else some (cs.foldl (fun a c => a * 16 + hexDigitVal c) 0)

/-- A colon-separated piece of an IPv6 address string: either raw
characters, or a 16-bit value produced by the embedded-IPv4 conversion
(CPython re-renders the converted halves as hex strings; reparsing those
always succeeds with the same value). -/
inductive HexItem
  | raw (cs : List Char)
  | val (v : Nat)
deriving DecidableEq

/-- An item is "empty" exactly when it came from an empty string piece. -/
def HexItem.isEmptyItem : HexItem → Bool
  | .raw cs => cs.isEmpty
  | .val _ => false

/-- Parse one item to its 16-bit value. -/
def HexItem.parse : HexItem → Option Nat
  | .raw cs => parseHextet cs
  | .val v => some v

/-- Indices `1 .. len-2` holding empty items (candidate positions of the
`::` gap), as CPython's loop `for i in range(1, len(parts) - 1)`. -/
def emptyInteriorIndices (items : List HexItem) : List Nat :=
  (List.range items.length).filter fun i =>
    1 ≤ i && i + 1 < items.length &&
      (items.getD i (.val 0)).isEmptyItem

/-- Fold a list of items into an integer, 16 bits per item; fails if any
item fails to parse. -/
def foldHextets (items : List HexItem) : Option Nat :=
  items.foldl
    (fun acc it =>
      match acc, it.parse with
      | some a, some v => some (a * 65536 + v)
      | _, _ => none)
    (some 0)

/-- CPython `IPv6Address._ip_int_from_string` after the embedded-IPv4
rewriting: locate the (at most one) `::` gap, check the leading/trailing
colon rules and the hextet count, and assemble the 128-bit value. -/
def ipv6FromItems (items : List HexItem) : Option Nat :=
  if items.length < 3 then none
  else if items.length > 9 then none
  else
    match emptyInteriorIndices items with
    | [] =>
      if items.length ≠ 8 then none
      else if (items.getD 0 (.val 0)).isEmptyItem then none
      else if (items.getD (items.length - 1) (.val 0)).isEmptyItem then none
      else foldHextets items
    | [i] =>
      let hi0 := i
      let lo0 := items.length - i - 1
      let headEmpty := (items.getD 0 (.val 0)).isEmptyItem
      let lastEmpty := (items.getD (items.length - 1) (.val 0)).isEmptyItem
      if headEmpty && hi0 - 1 ≠ 0 then none
      else if lastEmpty && lo0 - 1 ≠ 0 then none
      else
        let hi := if headEmpty then hi0 - 1 else hi0
        let lo := if lastEmpty then lo0 - 1 else lo0
        if 8 - (hi + lo) < 1 then none
        else
          match foldHextets (items.take hi), foldHextets (items.drop (items.length - lo)) with
          | some hv, some lv =>
            some (hv * 2 ^ (16 * (8 - hi)) + lv)
          | _, _ => none
    | _ => none

/-- Split off a `%scope` suffix as CPython `str.partition('%')` plus the
`IPv6Address.__init__` check that a `%` must be followed by a non-empty
scope id.  Returns the address part, or `none` on an empty scope. -/
def stripScope (cs : List Char) : Option (List Char) :=
  match splitOnChar '%' cs with
  | [addr] => some addr
  | addr :: rest =>
    -- `partition` splits at the first '%'; everything after it is the scope
    let scope := List.intercalate ['%'] rest
    if scope.isEmpty then none else some addr
  | [] => none

/-- CPython `IPv6Address` string parsing: reject `/`, strip a scope id,
split on `:`, convert an embedded IPv4 suffix, then assemble. -/
def ipv6FromChars (cs : List Char) : Option Nat :=
  if cs.contains '/' then none
  else
    match stripScope cs with
    | none => none
    | some addr =>
      let parts := splitOnChar ':' addr
      match parts.getLast? with
      | none => none
      | some last =>
        if last.contains '.' then
          match ipv4FromChars last with
          | none => none
          | some v4 =>
            ipv6FromItems
              ((parts.dropLast).map HexItem.raw ++ [.val (v4 / 65536), .val (v4 % 65536)])
        else
          ipv6FromItems (parts.map HexItem.raw)

/-- A parsed IP address: the version tag plus the numeric value. -/
inductive IpAddr
  | v4 (a : Nat)
  | v6 (a : Nat)
deriving DecidableEq

/-- CPython `ipaddress.ip_address(s)`: try IPv4, then IPv6; `none` models
the `ValueError` raised when neither succeeds.  (The code also rejects a
`/` inside IPv4 strings; no character of a slash-containing string parses
as an octet, so the result agrees.) -/
def ip_address (s : String) : Option IpAddr :=
  match ipv4FromChars s.data with
  | some a => some (.v4 a)
  | none =>
    match ipv6FromChars s.data with
    | some a => some (.v6 a)
    | none => none

/-- An `ipaddress.ip_network` literal: version, network address, mask bits. -/
structure IpNetwork where
  isV6 : Bool
  base : Nat
  maskBits : Nat
deriving DecidableEq

/-- The netmask of a `bits`-bit network with `m` mask bits. -/
def netmaskOf (bits m : Nat) : Nat := (2 ^ m - 1) * 2 ^ (bits - m)

/-- CPython `ip_obj in network`: `False` on version mismatch, otherwise
`address & netmask == network_address`. -/
def ipInNetwork (ip : IpAddr) (n : IpNetwork) : Bool :=
  match ip with
  | .v4 a => !n.isV6 && (a &&& netmaskOf 32 n.maskBits == n.base)
  | .v6 a => n.isV6 && (a &&& netmaskOf 128 n.maskBits == n.base)

/-- The `YOOKASSA_IPS` allow-list from `main.py` (lines 53-61). -/
def YOOKASSA_IPS : List IpNetwork :=
  [ ⟨false, 185 * 16777216 + 71 * 65536 + 76 * 256, 27⟩  -- 185.71.76.0/27
  , ⟨false, 185 * 16777216 + 71 * 65536 + 77 * 256, 27⟩  -- 185.71.77.0/27
  , ⟨false, 77 * 16777216 + 75 * 65536 + 153 * 256, 25⟩  -- 77.75.153.0/25
  , ⟨false, 77 * 16777216 + 75 * 65536 + 156 * 256 + 11, 32⟩  -- 77.75.156.11/32
  , ⟨false, 77 * 16777216 + 75 * 65536 + 156 * 256 + 35, 32⟩  -- 77.75.156.35/32
  , ⟨false, 77 * 16777216 + 75 * 65536 + 154 * 256 + 128, 25⟩  -- 77.75.154.128/25
  , ⟨true, 0x2a025180 * 2 ^ 96, 32⟩ ]                     -- 2a02:5180::/32

/-- `is_yookassa_ip` from `main.py` (lines 159-165): parse the address,
returning `False` on the `ValueError` of a malformed string, else test
membership in any allow-listed network. -/
def is_yookassa_ip (ip : String) : Bool :=
  match ip_address ip with
  | none => false
  | some ipObj => YOOKASSA_IPS.any (ipInNetwork ipObj)

example : is_yookassa_ip "185.71.76.1" = true := by decide
example : is_yookassa_ip "8.8.8.8" = false := by decide
example : is_yookassa_ip "not an ip" = false := by decide
example : is_yookassa_ip "2a02:5180::1" = true := by decide
example : is_yookassa_ip "2a03::1" = false := by decide
example : ip_address "::ffff:1.2.3.4" = some (.v6 0xffff01020304) := by decide
example : ip_address "1:2:3:4:5:6:7:8" = some (.v6 0x10002000300040005000600070008) := by decide
example : ip_address "1::8" = some (.v6 0x10000000000000000000000000008) := by decide
example : ip_address ":1::2" = none := by decide
example : ip_address "1:2" = none := by decide
example : ip_address "08.1.1.1" = none := by decide
example : ip_address "256.1.1.1" = none := by decide

/-! ## Data model

The single `orders` table of `main.py` (class `Order`, lines 70-82) and the
pydantic request/notification models (lines 87-109).  `total_amount` is a
numeric amount (`Float` column); no arithmetic is performed on it, so it is
embedded as `Rat`. -/

/-- Pydantic `OrderItem` (lines 87-95). -/
structure OrderItem where
  name : String
  quantity : Int
deriving DecidableEq

/-- A row of the `orders` table (lines 70-82): `status` defaults to
`"created"` and `payment_id` is nullable. -/
structure Order where
  id : Nat
  email : String
  phone : String
  address : String
  delivery_time : String
  order_time : String
  items : List OrderItem
  total_amount : Rat
  status : String
  payment_id : Option String
deriving DecidableEq

/-- The persistent store: committed rows plus the next auto-increment id. -/
structure Db where
  orders : List Order
  nextId : Nat
deriving DecidableEq

/-- Pydantic `OrderCreate` (lines 97-104).  Field types are enforced by
pydantic; the only value-level constraint is `EmailStr` (checked by an
external validator, passed as an oracle below). -/
structure OrderCreate where
  email : String
  phone : String
  address : String
  delivery_time : String
  order_time : String
  items : List OrderItem
  total_amount : Rat
deriving DecidableEq

/-- Pydantic `YooKassaNotification` (lines 106-109), with the two fields of
`object` the handler reads (`object["id"]`) or receives but ignores
(`object["status"]`, the status claimed by the sender). -/
structure YooKassaNotification where
  type : String
  event : String
  objectId : String
  objectStatus : String
deriving DecidableEq

/-- The pydantic validation step FastAPI runs before `create_order`:
field typing is the structure itself, and `EmailStr` defers to the external
validator `emailOk`.  No constraint is placed on `items`, `total_amount`,
or the other string fields. -/
def pydanticValidate (emailOk : String → Bool) (r : OrderCreate) : Option OrderCreate :=
  if emailOk r.email then some r else none

/-- `db.query(Order).filter(Order.payment_id == pid).first()`. -/
def findByPayment (db : Db) (pid : String) : Option Order :=
  db.orders.find? (fun o => o.payment_id == some pid)

/-- `order.status = s; db.commit()` for the order object obtained from a
query by payment id: the row with that primary key is updated in place. -/
def setStatus (db : Db) (oid : Nat) (s : String) : Db :=
  { db with orders := db.orders.map fun o => if o.id = oid then { o with status := s } else o }

/-- The status of the row with primary key `oid`, if present. -/
def statusOf (db : Db) (oid : Nat) : Option String :=
  (db.orders.find? (fun o => o.id == oid)).map Order.status

/-! ## `POST /order` — `create_order` (lines 177-224) -/

/-- The payment object returned by `yookassa.Payment.create`. -/
structure PaymentObj where
  id : String
  confirmation_token : String
deriving DecidableEq

/-- Response of the order-creation endpoint. -/
inductive CreateResp
  | ok (order_id : Nat) (confirmation_token : String)
  | err (code : Nat)
deriving DecidableEq

/-- The row inserted by `create_order` before the payment call: status is
the column default `"created"`, `payment_id` is still NULL. -/
def newOrderRow (oid : Nat) (order : OrderCreate) : Order :=
  { id := oid
  , email := order.email
  , phone := order.phone
  , address := order.address
  , delivery_time := order.delivery_time
  , order_time := order.order_time
  , items := order.items
  , total_amount := order.total_amount
  , status := "created"
  , payment_id := none }

/-- `create_order` (lines 178-224): insert and commit the row, then call
`yookassa.Payment.create` (outcome supplied as `payRes`; the retry policy
lives inside the HTTP session).  On success, commit the payment id and
return 200 with the confirmation token; on any exception, `db.rollback()`
discards only uncommitted changes — the committed row survives — and
`HTTPException(500)` is raised. -/
def create_order (db : Db) (order : OrderCreate)
    (payRes : Except String PaymentObj) : Db × CreateResp :=
  let row := newOrderRow db.nextId order
  let db1 : Db := ⟨db.orders ++ [row], db.nextId + 1⟩
  match payRes with
  | .ok payment =>
    let db2 : Db :=
      { db1 with orders := db1.orders.map fun o =>
          if o.id = row.id then { o with payment_id := some payment.id } else o }
    (db2, .ok row.id payment.confirmation_token)
  | .error _ => (db1, .err 500)

/-- The whole `POST /order` endpoint: FastAPI rejects the request with 422
when pydantic validation fails, and only then runs the handler. -/
def post_order (db : Db) (emailOk : String → Bool) (raw : OrderCreate)
    (payRes : Except String PaymentObj) : Db × CreateResp :=
  match pydanticValidate emailOk raw with
  | none => (db, .err 422)
  | some order => create_order db order payRes

/-! ## `POST /webhook` — `yookassa_webhook` (lines 226-294)

The whole body sits inside `try: ... except Exception as e: raise
HTTPException(status_code=500, ...)`.  `fastapi.HTTPException` is an
`Exception` subclass, so the `HTTPException(403)` and `HTTPException(400)`
raised inside the `try` are caught by that handler and replaced by a 500.
The inner function below returns `Except`; the outer function applies the
`except` clause. -/

/-- An exception escaping the `try` body: an `HTTPException` with its
status code, or any other error (JSON/pydantic parse failure). -/
inductive Exc
  | http (code : Nat) (detail : String)
  | other (msg : String)
deriving DecidableEq

/-- Result of the webhook endpoint: the store afterwards, the HTTP status,
whether the body was `{"status": "ok"}`, and whether the Telegram
notification block was reached (its own send failures are swallowed). -/
structure WebhookResult where
  db : Db
  code : Nat
  okBody : Bool
  notified : Bool
deriving DecidableEq

/-- The `try` body of `yookassa_webhook` (lines 229-290).  `body = none`
models a request whose JSON or pydantic parsing raised.  `gateway` is
`yookassa.Payment.find_one(...).status`, the independent re-check. -/
def webhook_inner (db : Db) (client_ip : String)
    (body : Option YooKassaNotification) (gateway : String → String) :
    Except Exc (Db × Bool) :=
  if is_yookassa_ip client_ip = false then
    .error (.http 403 "Unauthorized IP")
  else
    match body with
    | none => .error (.other "malformed notification body")
    | some n =>
      if n.type ≠ "notification" then
        .error (.http 400 "Invalid notification type")
      else if n.event = "payment.succeeded" then
        match findByPayment db n.objectId with
        | none => .ok (db, false)
        | some o =>
          if gateway n.objectId = "succeeded" then
            .ok (setStatus db o.id "paid", true)
          else
            .ok (db, false)
      else if n.event = "payment.waiting_for_capture" then
        .ok (db, false)
      else if n.event = "payment.canceled" then
        match findByPayment db n.objectId with
        | none => .ok (db, false)
        | some o => .ok (setStatus db o.id "canceled", false)
      else
        .ok (db, false)

/-- `yookassa_webhook` as observed over HTTP: the `except Exception`
clause turns every exception — including the handler's own 403 and 400 —
into a 500 response; no commit precedes any raise, so the store is
unchanged on the error path. -/
def yookassa_webhook (db : Db) (client_ip : String)
    (body : Option YooKassaNotification) (gateway : String → String) :
    WebhookResult :=
  match webhook_inner db client_ip body gateway with
  | .ok (db2, notified) => ⟨db2, 200, true, notified⟩
  | .error _ => ⟨db, 500, false, false⟩

/-! ## `GET /order/{order_id}/status` — `get_order_status` (lines 296-310)

Same `try/except Exception` pattern: the 404 raised for a missing order is
caught and re-raised as a 500. -/

/-- Response of the status endpoint. -/
inductive StatusResp
  | ok (order_id : Nat) (status : String) (payment_id : Option String)
  | err (code : Nat)
deriving DecidableEq

/-- The `try` body (lines 298-307). -/
def get_order_status_inner (db : Db) (order_id : Nat) :
    Except Exc StatusResp :=
  match db.orders.find? (fun o => o.id == order_id) with
  | none => .error (.http 404 "Заказ не найден")
  | some o => .ok (.ok o.id o.status o.payment_id)

/-- `get_order_status` as observed over HTTP. -/
def get_order_status (db : Db) (order_id : Nat) : StatusResp :=
  match get_order_status_inner db order_id with
  | .ok r => r
  | .error _ => .err 500

/-! ## Handler invocations as a step relation (for the lifecycle claims) -/

/-- One inbound request, with the oracles for its external calls. -/
inductive Event
  | submit (emailOk : String → Bool) (raw : OrderCreate) (payRes : Except String PaymentObj)
  | hook (ip : String) (body : Option YooKassaNotification) (gateway : String → String)
  | query (oid : Nat)

/-- The effect of one handler invocation on the store. -/
def step (db : Db) : Event → Db
  | .submit emailOk raw payRes => (post_order db emailOk raw payRes).1
  | .hook ip body gateway => (yookassa_webhook db ip body gateway).db
  | .query _ => db

/-- A sequence of handler invocations. -/
def run (db : Db) (es : List Event) : Db := es.foldl step db

/-! ## Helper lemmas about the store operations -/

theorem statusOf_setStatus (db : Db) (i : Nat) (s : String) (oid : Nat) :
    statusOf (setStatus db i s) oid =
      (db.orders.find? (fun o => o.id == oid)).map
        (fun o => if o.id = i then s else o.status) := by
  unfold statusOf setStatus
  rw [List.find?_map]
  have hp : ((fun o : Order => o.id == oid) ∘ fun o : Order =>
      if o.id = i then { o with status := s } else o) =
      fun o : Order => o.id == oid := by
    funext o
    by_cases h : o.id = i <;> simp [h]
  rw [hp, Option.map_map]
  congr 1
  funext o
  by_cases h : o.id = i <;> simp [h]

/-- A status write of `s` cannot make any row's status a different
string `t`. -/
theorem statusOf_setStatus_ne (db : Db) (i : Nat) (s t : String) (oid : Nat)
    (hne : t ≠ s) (h : statusOf (setStatus db i s) oid = some t) :
    statusOf db oid = some t := by
  rw [statusOf_setStatus] at h
  unfold statusOf
  cases hfind : db.orders.find? (fun o => o.id == oid) with
  | none => rw [hfind] at h; simp at h
  | some o =>
    rw [hfind] at h
    simp only [Option.map_some', Option.some.injEq] at h
    by_cases hio : o.id = i
    · rw [if_pos hio] at h; exact absurd h.symm hne
    · rw [if_neg hio] at h; simp [h]

/-- After a status write, every row's status is its old one, or the
written string. -/
theorem statusOf_setStatus_cases (db : Db) (i : Nat) (s : String) (oid : Nat) :
    statusOf (setStatus db i s) oid = statusOf db oid ∨
      statusOf (setStatus db i s) oid = some s := by
  rw [statusOf_setStatus]
  unfold statusOf
  cases hfind : db.orders.find? (fun o => o.id == oid) with
  | none => left; simp
  | some o =>
    by_cases hio : o.id = i
    · right; simp [hio]
    · left; simp [hio]

/-- Writing the status of a row that exists pins that row's status. -/
theorem statusOf_setStatus_self (db : Db) (i : Nat) (s : String)
    (h : ∃ o ∈ db.orders, o.id = i) :
    statusOf (setStatus db i s) i = some s := by
  rw [statusOf_setStatus]
  obtain ⟨o, ho, hoi⟩ := h
  have hsome : (db.orders.find? (fun o => o.id == i)).isSome :=
    List.find?_isSome.mpr ⟨o, ho, by simp [hoi]⟩
  obtain ⟨x, hx⟩ := Option.isSome_iff_exists.mp hsome
  have hxi := List.find?_some hx
  simp only [beq_iff_eq] at hxi
  rw [hx]
  simp [hxi]

/-- An order found by payment id is a row of the store. -/
theorem findByPayment_mem {db : Db} {pid : String} {o : Order}
    (h : findByPayment db pid = some o) : o ∈ db.orders :=
  List.mem_of_find?_eq_some h

/-- `create_order` never changes an existing row's status: the new row is
appended after all existing rows, and the payment-id update leaves `id`
and `status` untouched. -/
theorem statusOf_create_order (db : Db) (order : OrderCreate)
    (payRes : Except String PaymentObj) (oid : Nat) (s : String)
    (h : statusOf db oid = some s) :
    statusOf (create_order db order payRes).1 oid = some s := by
  unfold statusOf at h
  cases hfind : db.orders.find? (fun o => o.id == oid) with
  | none => rw [hfind] at h; simp at h
  | some o =>
    rw [hfind] at h
    simp only [Option.map_some', Option.some.injEq] at h
    cases payRes with
    | error e =>
      unfold create_order statusOf
      simp only
      rw [List.find?_append, hfind]
      simp [h]
    | ok payment =>
      unfold create_order statusOf
      simp only
      rw [List.find?_map]
      have hp : ((fun o : Order => o.id == oid) ∘ fun o : Order =>
          if o.id = (newOrderRow db.nextId order).id
          then { o with payment_id := some payment.id } else o) =
          fun o : Order => o.id == oid := by
        funext x
        by_cases hx : x.id = (newOrderRow db.nextId order).id <;> simp [hx]
      rw [hp, List.find?_append, hfind]
      simp only [Option.or_some, Option.map_some', Option.some.injEq]
      by_cases hx : o.id = (newOrderRow db.nextId order).id <;> simp [hx, h]

/-! ## Concrete fixtures for witnesses and counterexamples -/

/-- A well-formed order submission. -/
def rawW : OrderCreate :=
  ⟨"a@b.com", "+1", "X", "18:00", "17:00", [⟨"Widget", 2⟩], 10⟩

/-- A submission with a valid email but an empty item list and a negative
amount. -/
def rawBad : OrderCreate :=
  ⟨"a@b.com", "+1", "X", "18:00", "17:00", [], -5⟩

/-- A submission with a malformed email. -/
def rawBadEmail : OrderCreate :=
  ⟨"not-an-email", "+1", "X", "18:00", "17:00", [⟨"Widget", 2⟩], 10⟩

/-- A concrete stand-in for the external email validator. -/
def emailOkW : String → Bool := fun s => s == "a@b.com"

/-- A payment object returned by the gateway. -/
def payW : PaymentObj := ⟨"p1", "tok"⟩

/-- A source address inside `185.71.76.0/27`. -/
def trustedIp : String := "185.71.76.1"

def succNotif : YooKassaNotification :=
  ⟨"notification", "payment.succeeded", "p1", "succeeded"⟩

def cancelNotif : YooKassaNotification :=
  ⟨"notification", "payment.canceled", "p1", "canceled"⟩

def waitNotif : YooKassaNotification :=
  ⟨"notification", "payment.waiting_for_capture", "p1", "waiting_for_capture"⟩

/-- Gateway oracle whose re-check always reports success. -/
def gwSucceeded : String → String := fun _ => "succeeded"

/-- Gateway oracle whose re-check reports a pending payment. -/
def gwPending : String → String := fun _ => "pending"

/-- The empty store. -/
def db0 : Db := ⟨[], 1⟩

/-- A paid order attached to payment `p1`. -/
def orderPaid : Order :=
  ⟨1, "a@b.com", "+1", "X", "18:00", "17:00", [⟨"Widget", 2⟩], 10, "paid", some "p1"⟩

/-- A store holding one paid order. -/
def dbPaid : Db := ⟨[orderPaid], 2⟩

/-- A store holding one freshly created order attached to payment `p1`. -/
def dbCreated : Db := ⟨[{ orderPaid with status := "created" }], 2⟩

def eSubmit : Event := .submit emailOkW rawW (.ok payW)
def eSucc : Event := .hook trustedIp (some succNotif) gwSucceeded
def eCancel : Event := .hook trustedIp (some cancelNotif) gwSucceeded

/-! ## Claims -/

/-- **C3** (code bug): `main.py` line 233 raises `HTTPException(403)` for a
webhook from an untrusted source, but the surrounding
`except Exception` (line 292) catches it and re-raises it as a 500.  So for
every request from an untrusted address the inner body does raise the
intended 403, no order state is mutated and no notification is sent — but
the observable HTTP status is 500, not the 403 the claim states. -/
theorem C3_untrusted_ip_rejected_as_500 (db : Db)
    (body : Option YooKassaNotification) (gateway : String → String)
    (ip : String) (h : is_yookassa_ip ip = false) :
    webhook_inner db ip body gateway = .error (.http 403 "Unauthorized IP") ∧
    yookassa_webhook db ip body gateway = ⟨db, 500, false, false⟩ := by
  constructor
  · unfold webhook_inner
    simp [h]
  · unfold yookassa_webhook webhook_inner
    simp [h]

/-- **C3** witness: the concrete untrusted source `8.8.8.8` with a
`payment.canceled` event for a paid order. -/
theorem C3_witness :
    webhook_inner dbPaid "8.8.8.8" (some cancelNotif) gwSucceeded =
      .error (.http 403 "Unauthorized IP") ∧
    yookassa_webhook dbPaid "8.8.8.8" (some cancelNotif) gwSucceeded =
      ⟨dbPaid, 500, false, false⟩ :=
  C3_untrusted_ip_rejected_as_500 dbPaid (some cancelNotif) gwSucceeded
    "8.8.8.8" (by decide)

/-- **C5** (code bug): `get_order_status` raises `HTTPException(404)` when
no order has the requested id (line 301), but its `except Exception`
(line 308) catches that and re-raises a 500.  Evaluating the endpoint at
the failing input — order id 1 against an empty store — shows the inner
body raising the intended 404 while the observable response is 500.  (The
other half of the claim holds: an existing order yields
`200 {order_id, status, payment_id}`, e.g. `get_order_status dbPaid 1`.) -/
theorem C5_missing_order_gives_500 :
    get_order_status_inner db0 1 = .error (.http 404 "Заказ не найден") ∧
    get_order_status db0 1 = .err 500 ∧
    get_order_status dbPaid 1 = .ok 1 "paid" (some "p1") :=
  ⟨rfl, rfl, rfl⟩

/-- **C7** (confirmed): if the payment-creation call fails after the order
row was committed, `create_order` leaves exactly the new row appended —
status `"created"`, `payment_id` NULL — and raises `HTTPException(500)`;
the `db.rollback()` in the `except` clause only discards uncommitted
changes, so the committed row is not deleted. -/
theorem C7_orphan_row_on_payment_failure (db : Db) (order : OrderCreate)
    (msg : String) :
    create_order db order (.error msg) =
      (⟨db.orders ++ [newOrderRow db.nextId order], db.nextId + 1⟩, .err 500) ∧
    (newOrderRow db.nextId order).status = "created" ∧
    (newOrderRow db.nextId order).payment_id = none :=
  ⟨rfl, rfl, rfl⟩

/-- **C9** (confirmed): `is_yookassa_ip` wraps the `ipaddress.ip_address`
call in `try/except ValueError: return False`, so every string that fails
to parse as an IPv4 or IPv6 address yields `False` rather than an
exception. -/
theorem C9_malformed_address_untrusted (s : String)
    (h : ip_address s = none) : is_yookassa_ip s = false := by
  unfold is_yookassa_ip
  rw [h]

/-- **C9** witness: a concrete malformed source address. -/
theorem C9_witness :
    ip_address "not an ip" = none ∧ is_yookassa_ip "not an ip" = false :=
  ⟨by decide, C9_malformed_address_untrusted "not an ip" (by decide)⟩

/-- **C4** (counterexample): a submission with a valid email but an empty
item list and a negative `total_amount` is not rejected — pydantic
validation passes it through, the handler persists a row for it, and the
call returns 200 with order id 1 and the confirmation token. -/
theorem C4_counterexample :
    rawBad.items = [] ∧ rawBad.total_amount < 0 ∧
    pydanticValidate emailOkW rawBad = some rawBad ∧
    post_order db0 emailOkW rawBad (.ok payW) =
      (⟨[{ newOrderRow 1 rawBad with payment_id := some "p1" }], 2⟩, .ok 1 "tok") :=
  ⟨rfl, by decide, rfl, rfl⟩

/-- **C4** (amended): only the email is validated.  A submission whose
email fails the external validator is rejected with 422 before the handler
runs, so no row is persisted; any submission whose email passes — whatever
its item list or amount — reaches `create_order` unchanged. -/
theorem C4_validation_checks_only_email :
    (∀ (db : Db) (emailOk : String → Bool) (raw : OrderCreate)
        (payRes : Except String PaymentObj),
      emailOk raw.email = false →
      post_order db emailOk raw payRes = (db, .err 422)) ∧
    (∀ (db : Db) (emailOk : String → Bool) (raw : OrderCreate)
        (payRes : Except String PaymentObj),
      emailOk raw.email = true →
      post_order db emailOk raw payRes = create_order db raw payRes) := by
  constructor <;>
    · intro db emailOk raw payRes h
      unfold post_order pydanticValidate
      simp [h]

/-- **C4** witness: a malformed email is rejected with no persistence; the
empty-items/negative-amount submission proceeds to the handler. -/
theorem C4_witness :
    post_order db0 emailOkW rawBadEmail (.ok payW) = (db0, .err 422) ∧
    post_order db0 emailOkW rawBad (.ok payW) = create_order db0 rawBad (.ok payW) :=
  ⟨C4_validation_checks_only_email.1 db0 emailOkW rawBadEmail (.ok payW) (by decide),
   C4_validation_checks_only_email.2 db0 emailOkW rawBad (.ok payW) (by decide)⟩

/-- Exhaustive characterization of the webhook `try` body when it returns
normally: either nothing was written, or the `payment.succeeded` branch
committed `"paid"` after the gateway re-check, or the `payment.canceled`
branch committed `"canceled"`. -/
theorem webhook_inner_ok_cases (db : Db) (ip : String)
    (body : Option YooKassaNotification) (gateway : String → String)
    (r : Db × Bool) (h : webhook_inner db ip body gateway = .ok r) :
    r = (db, false) ∨
      (∃ n o, body = some n ∧ n.event = "payment.succeeded" ∧
        findByPayment db n.objectId = some o ∧
        gateway n.objectId = "succeeded" ∧
        r = (setStatus db o.id "paid", true)) ∨
      (∃ n o, body = some n ∧ n.event = "payment.canceled" ∧
        findByPayment db n.objectId = some o ∧
        r = (setStatus db o.id "canceled", false)) := by
  unfold webhook_inner at h
  by_cases hip : is_yookassa_ip ip = false
  · simp [hip] at h
  · rw [if_neg hip] at h
    cases body with
    | none => simp at h
    | some n =>
      simp only at h
      by_cases htype : n.type = "notification"
      case neg => simp [htype] at h
      case pos =>
        rw [if_neg (by simpa using htype)] at h
        by_cases hev : n.event = "payment.succeeded"
        · rw [if_pos hev] at h
          split at h
          case _ hfind =>
            simp only [Except.ok.injEq] at h
            exact Or.inl h.symm
          case _ o hfind =>
            by_cases hgw : gateway n.objectId = "succeeded"
            · rw [if_pos hgw] at h
              simp only [Except.ok.injEq] at h
              exact Or.inr (Or.inl ⟨n, o, rfl, hev, hfind, hgw, h.symm⟩)
            · rw [if_neg hgw] at h
              simp only [Except.ok.injEq] at h
              exact Or.inl h.symm
        · rw [if_neg hev] at h
          by_cases hwait : n.event = "payment.waiting_for_capture"
          · rw [if_pos hwait] at h
            simp only [Except.ok.injEq] at h
            exact Or.inl h.symm
          · rw [if_neg hwait] at h
            by_cases hcan : n.event = "payment.canceled"
            · rw [if_pos hcan] at h
              split at h
              case _ hfind =>
                simp only [Except.ok.injEq] at h
                exact Or.inl h.symm
              case _ o hfind =>
                simp only [Except.ok.injEq] at h
                exact Or.inr (Or.inr ⟨n, o, rfl, hcan, hfind, h.symm⟩)
            · rw [if_neg hcan] at h
              simp only [Except.ok.injEq] at h
              exact Or.inl h.symm

/-- **C1** (counterexample): the claim rules out `paid→canceled` and
`canceled→paid`, but the webhook handler writes the new status without
looking at the current one.  Submitting an order (id 1, payment `p1`),
confirming it, then delivering `payment.canceled`, then re-delivering
`payment.succeeded` drives its status `created → paid → canceled → paid`. -/
theorem C1_counterexample :
    statusOf (run db0 [eSubmit]) 1 = some "created" ∧
    statusOf (run db0 [eSubmit, eSucc]) 1 = some "paid" ∧
    statusOf (run db0 [eSubmit, eSucc, eCancel]) 1 = some "canceled" ∧
    statusOf (run db0 [eSubmit, eSucc, eCancel, eSucc]) 1 = some "paid" :=
  ⟨by decide, by decide, by decide, by decide⟩

/-- **C1** (amended): what the handlers do guarantee is that no invocation
ever moves an existing order's status back to `"created"` (or deletes the
row): a row's status after any handler invocation is its previous status,
`"paid"`, or `"canceled"`.  In particular `paid→created` and
`canceled→created` are impossible — but `paid→canceled` and
`canceled→paid` are reachable, as the counterexample shows. -/
theorem C1_no_transition_back_to_created (db : Db) (e : Event) (oid : Nat)
    (s : String) (h : statusOf db oid = some s) :
    statusOf (step db e) oid = some s ∨
      statusOf (step db e) oid = some "paid" ∨
      statusOf (step db e) oid = some "canceled" := by
  cases e with
  | submit emailOk raw payRes =>
    left
    cases hv : pydanticValidate emailOk raw with
    | none => simpa [step, post_order, hv] using h
    | some oc =>
      simp only [step, post_order, hv]
      exact statusOf_create_order db oc payRes oid s h
  | query oid2 => left; exact h
  | hook ip body gateway =>
    cases hw : webhook_inner db ip body gateway with
    | error e2 =>
      left
      simp only [step, yookassa_webhook, hw]
      exact h
    | ok r =>
      obtain ⟨rdb, rnotified⟩ := r
      simp only [step, yookassa_webhook, hw]
      rcases webhook_inner_ok_cases db ip body gateway (rdb, rnotified) hw with
        hA | ⟨n, o, -, -, -, -, hr⟩ | ⟨n, o, -, -, -, hr⟩
      · injection hA with h1 h2
        subst h1
        exact Or.inl h
      · injection hr with h1 h2
        subst h1
        rcases statusOf_setStatus_cases db o.id "paid" oid with hc | hc
        · left; rw [hc]; exact h
        · right; left; exact hc
      · injection hr with h1 h2
        subst h1
        rcases statusOf_setStatus_cases db o.id "canceled" oid with hc | hc
        · left; rw [hc]; exact h
        · right; right; exact hc

/-- **C1** witness: the cancellation webhook applied to the paid order. -/
theorem C1_witness :
    statusOf (step dbPaid eCancel) 1 = some "paid" ∨
      statusOf (step dbPaid eCancel) 1 = some "paid" ∨
      statusOf (step dbPaid eCancel) 1 = some "canceled" :=
  C1_no_transition_back_to_created dbPaid eCancel 1 "paid" (by decide)

/-- **C2** (confirmed): an order becomes `"paid"` only when the delivered
body is a `payment.succeeded` notification and the handler's independent
`yookassa.Payment.find_one` re-check (the `gateway` oracle) returned
`"succeeded"` for that payment — the commit of the mutation is conditioned
on the verification call's return value, so it cannot precede it.  And the
status claimed inside the pushed payload (`object["status"]`) is never
read: the handler's entire result is invariant under changing it. -/
theorem C2_paid_requires_gateway_verification :
    (∀ (db : Db) (ip : String) (body : Option YooKassaNotification)
        (gateway : String → String) (oid : Nat),
      statusOf (yookassa_webhook db ip body gateway).db oid = some "paid" →
      statusOf db oid = some "paid" ∨
        ∃ n, body = some n ∧ n.event = "payment.succeeded" ∧
          gateway n.objectId = "succeeded") ∧
    (∀ (db : Db) (ip : String) (n : YooKassaNotification)
        (gateway : String → String) (s : String),
      yookassa_webhook db ip (some { n with objectStatus := s }) gateway =
        yookassa_webhook db ip (some n) gateway) := by
  constructor
  · intro db ip body gateway oid h
    cases hw : webhook_inner db ip body gateway with
    | error e2 =>
      simp only [yookassa_webhook, hw] at h
      exact Or.inl h
    | ok r =>
      obtain ⟨rdb, rnotified⟩ := r
      simp only [yookassa_webhook, hw] at h
      rcases webhook_inner_ok_cases db ip body gateway (rdb, rnotified) hw with
        hA | ⟨n, o, hb, hev, -, hgw, -⟩ | ⟨n, o, -, -, -, hr⟩
      · injection hA with h1 h2
        subst h1
        exact Or.inl h
      · exact Or.inr ⟨n, hb, hev, hgw⟩
      · injection hr with h1 h2
        subst h1
        exact Or.inl (statusOf_setStatus_ne db o.id "canceled" "paid" oid
          (by decide) h)
  · intro db ip n gateway s
    cases n
    rfl

/-- **C2** witness: the confirmation webhook on a freshly created order;
the order was not paid before, so the verification disjunct is forced. -/
theorem C2_witness :
    statusOf dbCreated 1 = some "paid" ∨
      ∃ n, (some succNotif : Option YooKassaNotification) = some n ∧
        n.event = "payment.succeeded" ∧ gwSucceeded n.objectId = "succeeded" :=
  C2_paid_requires_gateway_verification.1 dbCreated trustedIp (some succNotif)
    gwSucceeded 1 (by decide)

/-- **C6** (confirmed): re-delivering `payment.succeeded` for an order
already `"paid"`, with the gateway re-check still reporting `"succeeded"`,
answers 200 `{"status": "ok"}`, leaves the order's status `"paid"` (the
handler re-assigns the same string, which is a no-op on the value), and
re-runs the Telegram notification block. -/
theorem C6_repaid_redelivery_is_noop (db : Db) (ip : String)
    (n : YooKassaNotification) (gateway : String → String) (o : Order)
    (hip : is_yookassa_ip ip = true)
    (htype : n.type = "notification")
    (hev : n.event = "payment.succeeded")
    (hfind : findByPayment db n.objectId = some o)
    (hpaid : o.status = "paid")
    (hgw : gateway n.objectId = "succeeded") :
    statusOf (yookassa_webhook db ip (some n) gateway).db o.id = some "paid" ∧
    (yookassa_webhook db ip (some n) gateway).code = 200 ∧
    (yookassa_webhook db ip (some n) gateway).okBody = true ∧
    (yookassa_webhook db ip (some n) gateway).notified = true := by
  have hrun : yookassa_webhook db ip (some n) gateway =
      ⟨setStatus db o.id "paid", 200, true, true⟩ := by
    unfold yookassa_webhook webhook_inner
    simp [hip, htype, hev, hfind, hgw]
  rw [hrun]
  exact ⟨statusOf_setStatus_self db o.id "paid"
      ⟨o, findByPayment_mem hfind, rfl⟩, rfl, rfl, rfl⟩

/-- **C6** witness: the paid order receives the same confirmation again. -/
theorem C6_witness :
    statusOf (yookassa_webhook dbPaid trustedIp (some succNotif) gwSucceeded).db
        orderPaid.id = some "paid" ∧
    (yookassa_webhook dbPaid trustedIp (some succNotif) gwSucceeded).code = 200 ∧
    (yookassa_webhook dbPaid trustedIp (some succNotif) gwSucceeded).okBody = true ∧
    (yookassa_webhook dbPaid trustedIp (some succNotif) gwSucceeded).notified = true :=
  C6_repaid_redelivery_is_noop dbPaid trustedIp succNotif gwSucceeded orderPaid
    (by decide) rfl rfl (by decide) rfl rfl

/-- **C8** (confirmed): a trusted, well-formed notification whose event is
`payment.waiting_for_capture` (logged only) or unrecognized (no dispatch
branch) is acknowledged with 200 `{"status": "ok"}`, with no store change
and no notification. -/
theorem C8_ignored_events_acknowledged (db : Db) (ip : String)
    (n : YooKassaNotification) (gateway : String → String)
    (hip : is_yookassa_ip ip = true)
    (htype : n.type = "notification")
    (hev : n.event = "payment.waiting_for_capture" ∨
      (n.event ≠ "payment.succeeded" ∧ n.event ≠ "payment.waiting_for_capture" ∧
        n.event ≠ "payment.canceled")) :
    yookassa_webhook db ip (some n) gateway = ⟨db, 200, true, false⟩ := by
  unfold yookassa_webhook webhook_inner
  rcases hev with hev | ⟨h1, h2, h3⟩
  · simp [hip, htype, hev]
  · simp [hip, htype, h1, h2, h3]

/-- **C8** witness: a `payment.waiting_for_capture` event, and an unknown
`refund.succeeded` event, both from a trusted source. -/
theorem C8_witness :
    yookassa_webhook dbPaid trustedIp (some waitNotif) gwSucceeded =
      ⟨dbPaid, 200, true, false⟩ ∧
    yookassa_webhook dbPaid trustedIp
        (some ⟨"notification", "refund.succeeded", "p1", "succeeded"⟩) gwSucceeded =
      ⟨dbPaid, 200, true, false⟩ :=
  ⟨C8_ignored_events_acknowledged dbPaid trustedIp waitNotif gwSucceeded
      (by decide) rfl (Or.inl rfl),
   C8_ignored_events_acknowledged dbPaid trustedIp
      ⟨"notification", "refund.succeeded", "p1", "succeeded"⟩ gwSucceeded
      (by decide) rfl (Or.inr (by decide))⟩

/-- **C10** (confirmed): for a trusted `payment.succeeded` delivery, if no
order carries the payload's payment id, or the gateway re-check reports
anything but `"succeeded"`, the handler changes no row, reaches no
notification, and still answers 200 `{"status": "ok"}`. -/
theorem C10_mismatch_silently_acknowledged (db : Db) (ip : String)
    (n : YooKassaNotification) (gateway : String → String)
    (hip : is_yookassa_ip ip = true)
    (htype : n.type = "notification")
    (hev : n.event = "payment.succeeded")
    (hmiss : findByPayment db n.objectId = none ∨
      gateway n.objectId ≠ "succeeded") :
    yookassa_webhook db ip (some n) gateway = ⟨db, 200, true, false⟩ := by
  unfold yookassa_webhook webhook_inner
  rcases hmiss with hf | hg
  · simp [hip, htype, hev, hf]
  · cases hfind : findByPayment db n.objectId with
    | none => simp [hip, htype, hev, hfind]
    | some o => simp [hip, htype, hev, hfind, hg]

/-- **C10** witness: a succeeded event whose payment id matches no order,
and one whose re-check reports `"pending"`. -/
theorem C10_witness :
    yookassa_webhook db0 trustedIp (some succNotif) gwSucceeded =
      ⟨db0, 200, true, false⟩ ∧
    yookassa_webhook dbCreated trustedIp (some succNotif) gwPending =
      ⟨dbCreated, 200, true, false⟩ :=
  ⟨C10_mismatch_silently_acknowledged db0 trustedIp succNotif gwSucceeded
      (by decide) rfl rfl (Or.inl (by decide)),
   C10_mismatch_silently_acknowledged dbCreated trustedIp succNotif gwPending
      (by decide) rfl rfl (Or.inr (by decide))⟩

end YK
